import Mathlib

/-!
Verification of the flow-builder core: the graph data model
(src/types/flow.ts), the save-time validator
(src/utils/validateFlow.ts), the Zustand store snapshot
(src/hooks/useFlowState.ts), the save handler
(src/components/FlowBuilder/Toolbar/SaveButton.tsx) and the canvas
event handlers (FlowCanvas, SettingsPanel, FileUploadSettingsPanel).
TypeScript arrays are embedded as lists, the out-degree Map as its
lookup function, and each React event handler as a pure state
transition on the store snapshot it reads and writes.
-/

/-- Discriminant of the supported node kinds (type NodeType in types/flow.ts). -/
inductive NodeType where
  | text
  | fileUpload
  deriving DecidableEq

/-- Variant-specific node payload: TextNodeData carries the message text,
FileUploadNodeData carries label, allowed extensions, max size in MB and the
multiple-files flag. The TypeScript discriminant field data.type is the
constructor. -/
inductive NodeData where
  | text (text : String)
  | fileUpload (label : String) (allowedTypes : List String) (maxSize : Int) (multiple : Bool)
  deriving DecidableEq

/-- Canvas coordinate pair. Coordinates are irrelevant to every property
proved here; they are embedded as integers. -/
structure Position where
  x : Int
  y : Int
  deriving DecidableEq

/-- AppNode from types/flow.ts: id, position and the kind-specific data. -/
structure AppNode where
  id : String
  position : Position
  data : NodeData
  deriving DecidableEq

/-- The node.type discriminant; the TypeScript union ties it to data.type,
so it is derived from the payload. -/
def AppNode.type (n : AppNode) : NodeType :=
  match n.data with
  | .text _ => .text
  | .fileUpload _ _ _ _ => .fileUpload

/-- Stroke style of an edge as constructed in FlowCanvas.onConnect. -/
structure EdgeStyle where
  stroke : String
  strokeWidth : Nat
  deriving DecidableEq

/-- Arrow marker of an edge as constructed in FlowCanvas.onConnect
(the field called type in the source is called kind here). -/
structure EdgeMarker where
  kind : String
  color : String
  width : Nat
  height : Nat
  deriving DecidableEq

/-- AppEdge (React Flow Edge): endpoints, optional handles and the
presentational attributes set by onConnect. -/
structure AppEdge where
  id : String
  source : String
  target : String
  sourceHandle : Option String
  targetHandle : Option String
  kind : String
  style : EdgeStyle
  markerEnd : EdgeMarker
  animated : Bool
  deriving DecidableEq

/-- ValidationResult from validateFlow.ts: the verdict flag, the optional
error message and the optional diagnostic list of offending node ids
(the field the spec calls offendingNodeIds is named nodesWithNoOutgoing
in the source). -/
structure ValidationResult where
  ok : Bool
  message : Option String
  nodesWithNoOutgoing : Option (List String)
  deriving DecidableEq

/-- The out-degree tally of validateBeforeSave: the loop
edges.forEach (e => outCount.set(e.source, (outCount.get(e.source) ?? 0) + 1))
with the Map embedded as its total lookup function (get with default 0). -/
def outCountFrom (m : String → Nat) : List AppEdge → (String → Nat)
  | [] => m
  | e :: es => outCountFrom (fun id => if id = e.source then m id + 1 else m id) es

/-- Out-degree of a node id: the number of edges whose source field equals it. -/
def outDegree (edges : List AppEdge) (id : String) : Nat :=
  edges.countP (fun e => e.source == id)

/-- The terminal set: nodes of the collection whose out-degree is zero. -/
def terminalNodes (nodes : List AppNode) (edges : List AppEdge) : List AppNode :=
  nodes.filter (fun n => outDegree edges n.id == 0)

/-- validateBeforeSave from src/utils/validateFlow.ts, line by line. -/
def validateBeforeSave (nodes : List AppNode) (edges : List AppEdge) : ValidationResult :=
  if nodes.length ≤ 1 then { ok := true, message := none, nodesWithNoOutgoing := none }
  else
    let outCount := outCountFrom (fun _ => 0) edges
    let nodesWithNoOutgoing := nodes.filter (fun n => outCount n.id == 0)
    if nodesWithNoOutgoing.length > 1 then
      { ok := false
        message := some ("There are " ++ toString nodesWithNoOutgoing.length ++
          " nodes with empty target handles. At most 1 is allowed.")
        nodesWithNoOutgoing := some (nodesWithNoOutgoing.map (fun n => n.id)) }
    else { ok := true, message := none, nodesWithNoOutgoing := none }

theorem outCountFrom_eq (es : List AppEdge) : ∀ (m : String → Nat) (id : String),
    outCountFrom m es id = m id + es.countP (fun e => e.source == id) := by
  induction es with
  | nil => intro m id; simp [outCountFrom]
  | cons e es ih =>
    intro m id
    rw [outCountFrom, ih, List.countP_cons]
    by_cases h : e.source = id
    · simp [h, beq_iff_eq]
      omega
    · have hne : id ≠ e.source := fun hc => h hc.symm
      simp [hne, h, beq_iff_eq]

theorem outCountFrom_zero (es : List AppEdge) :
    outCountFrom (fun _ => 0) es = outDegree es := by
  funext id
  rw [outCountFrom_eq]
  simp [outDegree]

/-- Characterization of validateBeforeSave through the terminal set. -/
theorem validateBeforeSave_eq (nodes : List AppNode) (edges : List AppEdge) :
    validateBeforeSave nodes edges =
      if nodes.length ≤ 1 then { ok := true, message := none, nodesWithNoOutgoing := none }
      else if 1 < (terminalNodes nodes edges).length then
        { ok := false
          message := some ("There are " ++ toString (terminalNodes nodes edges).length ++
            " nodes with empty target handles. At most 1 is allowed.")
          nodesWithNoOutgoing := some ((terminalNodes nodes edges).map (fun n => n.id)) }
      else { ok := true, message := none, nodesWithNoOutgoing := none } := by
  rw [validateBeforeSave, outCountFrom_zero, terminalNodes]

/-- C1: validateBeforeSave answers ok = true exactly when the node
collection has at most one member or at most one node has out-degree
zero; with 0 or 1 nodes the verdict is affirmative whatever the edges. -/
theorem validateBeforeSave_ok_iff (nodes : List AppNode) (edges : List AppEdge) :
    (validateBeforeSave nodes edges).ok = true ↔
      nodes.length ≤ 1 ∨ (terminalNodes nodes edges).length ≤ 1 := by
  rw [validateBeforeSave_eq]
  by_cases h1 : nodes.length ≤ 1
  · simp [h1]
  · by_cases h2 : 1 < (terminalNodes nodes edges).length
    · simp [h1, h2]
    · simp [h1, h2]
      omega

/-- Test fixture: a text node at the origin with a fixed message. -/
def mkTextNode (id : String) : AppNode :=
  { id, position := { x := 0, y := 0 }, data := .text "msg" }

/-- Test fixture: an edge styled the way FlowCanvas.onConnect builds them. -/
def mkEdge (id source target : String) : AppEdge :=
  { id, source, target, sourceHandle := none, targetHandle := none,
    kind := "default", style := { stroke := "#3B82F6", strokeWidth := 2 },
    markerEnd := { kind := "arrowclosed", color := "#3B82F6", width := 20, height := 20 },
    animated := false }

/-- C2: with at least two nodes of which more than one has out-degree zero,
validateBeforeSave returns ok = false, a message stating the terminal-set
size and the at-most-1 rule, and the diagnostic field listing exactly the
ids of the zero-out-degree nodes in input iteration order. -/
theorem validateBeforeSave_invalid_verdict (nodes : List AppNode) (edges : List AppEdge)
    (hn : 2 ≤ nodes.length) (hterm : 1 < (terminalNodes nodes edges).length) :
    validateBeforeSave nodes edges =
      { ok := false
        message := some ("There are " ++ toString (terminalNodes nodes edges).length ++
          " nodes with empty target handles. At most 1 is allowed.")
        nodesWithNoOutgoing := some ((terminalNodes nodes edges).map (fun n => n.id)) } := by
  rw [validateBeforeSave_eq]
  have h1 : ¬ nodes.length ≤ 1 := by omega
  simp [h1, hterm]

/-- Scenario C of the spec: three nodes X, Y, Z and the single edge X→Y. -/
def scNodes : List AppNode := [mkTextNode "X", mkTextNode "Y", mkTextNode "Z"]

/-- Scenario C edge collection. -/
def scEdges : List AppEdge := [mkEdge "e1" "X" "Y"]

theorem validateBeforeSave_invalid_verdict_witness :
    validateBeforeSave scNodes scEdges =
      { ok := false
        message := some "There are 2 nodes with empty target handles. At most 1 is allowed."
        nodesWithNoOutgoing := some ["Y", "Z"] } := by
  rw [validateBeforeSave_invalid_verdict scNodes scEdges (by decide) (by decide)]
  rfl

/-- Two text nodes X and Y with no edge between them. -/
def c3nodes : List AppNode := [mkTextNode "X", mkTextNode "Y"]

/-- An edge from the existing node X to the non-existent node ghost. -/
def c3edge : AppEdge := mkEdge "e1" "X" "ghost"

/-- C3 counterexample: the edge X→ghost references a missing node (its
target names no node of the collection), yet it increments node X's
counted out-degree bucket and changes the verdict of validateBeforeSave. -/
theorem danglingTarget_affects_verdict_cex :
    c3edge.target ∉ c3nodes.map (fun n => n.id) ∧
    outDegree [c3edge] "X" ≠ outDegree [] "X" ∧
    validateBeforeSave c3nodes [c3edge] ≠ validateBeforeSave c3nodes [] := by
  decide

/-- C3 amended: an edge whose source field names no node of the collection
contributes to no node's counted out-degree and leaves the verdict
unchanged; the target field is never consulted by the tally, so an edge
with an existing source and a dangling target still counts for its source. -/
theorem validateBeforeSave_ignores_missing_source (nodes : List AppNode)
    (edges : List AppEdge) (e : AppEdge)
    (h : e.source ∉ nodes.map (fun n => n.id)) :
    (nodes.all (fun n => outDegree (e :: edges) n.id == outDegree edges n.id)) = true ∧
    validateBeforeSave nodes (e :: edges) = validateBeforeSave nodes edges := by
  have hdeg : ∀ n ∈ nodes, outDegree (e :: edges) n.id = outDegree edges n.id := by
    intro n hnmem
    rw [outDegree, outDegree, List.countP_cons]
    have hne : (e.source == n.id) = false := by
      rw [beq_eq_false_iff_ne]
      intro hc
      have : e.source ∈ nodes.map (fun n => n.id) := by
        rw [hc]
        exact List.mem_map_of_mem _ hnmem
      exact h this
    simp [hne]
  have hterm : terminalNodes nodes (e :: edges) = terminalNodes nodes edges := by
    rw [terminalNodes, terminalNodes]
    exact List.filter_congr (fun n hnmem => by rw [hdeg n hnmem])
  constructor
  · rw [List.all_eq_true]
    intro n hnmem
    rw [beq_iff_eq]
    exact hdeg n hnmem
  · rw [validateBeforeSave_eq, validateBeforeSave_eq, hterm]

/-- An edge whose source ghost names no node of c3nodes. -/
def c3wEdge : AppEdge := mkEdge "e2" "ghost" "X"

theorem validateBeforeSave_ignores_missing_source_witness :
    (c3nodes.all (fun n => outDegree (c3wEdge :: []) n.id == outDegree [] n.id)) = true ∧
    validateBeforeSave c3nodes [c3wEdge] = validateBeforeSave c3nodes [] :=
  validateBeforeSave_ignores_missing_source c3nodes [] c3wEdge (by decide)

/-- The Zustand store snapshot of useFlowState.ts: the node collection,
the edge collection and the selection cursor. -/
structure CanvasState where
  nodes : List AppNode
  edges : List AppEdge
  selectedNodeId : Option String
  deriving DecidableEq

/-- The initial store state of useFlowState.ts: one default text node,
no edges, nothing selected. -/
def initialFlowState : CanvasState :=
  { nodes := [{ id := "text-1", position := { x := 400, y := 200 },
                data := .text "Hello World" }],
    edges := [], selectedNodeId := none }

/-- One invocation of validateBeforeSave against the current store
snapshot: the TypeScript function only reads its two arguments (it builds
a fresh Map and fresh arrays), so the call returns the verdict and leaves
the snapshot exactly as it was. -/
def validateCall (s : CanvasState) : ValidationResult × CanvasState :=
  (validateBeforeSave s.nodes s.edges, s)

/-- C4: a validation call leaves the snapshot unchanged, and a second call
on the resulting snapshot yields the identical verdict. -/
theorem validateCall_idempotent_no_mutation (s : CanvasState) :
    (validateCall s).2 = s ∧
    (validateCall ((validateCall s).2)).1 = (validateCall s).1 :=
  ⟨rfl, rfl⟩

/-- Local component state of SaveButton.tsx: the store snapshot it reads
plus its two feedback messages. -/
structure SaveButtonState where
  nodes : List AppNode
  edges : List AppEdge
  selectedNodeId : Option String
  error : Option String
  success : Option String
  deriving DecidableEq

/-- The payload { nodes, edges } handed to the persistence collaborator. -/
structure FlowPayload where
  nodes : List AppNode
  edges : List AppEdge
  deriving DecidableEq

/-- JavaScript string-or fallback: v || fallback, where null and the empty
string are falsy. -/
def jsStringOr (v : Option String) (fallback : String) : String :=
  match v with
  | none => fallback
  | some s => if s = "" then fallback else s

/-- onSave from SaveButton.tsx: clear both messages, validate the current
snapshot; on a negative verdict set the error message and hand off
nothing; on an affirmative verdict set the success message and hand the
payload { nodes, edges } to the persistence collaborator (console.log in
the source, modelled as the second component). -/
def onSave (s : SaveButtonState) : SaveButtonState × Option FlowPayload :=
  let s0 : SaveButtonState := { s with error := none, success := none }
  let result := validateBeforeSave s0.nodes s0.edges
  if !result.ok then
    ({ s0 with error := some (jsStringOr result.message "Validation failed.") }, none)
  else
    ({ s0 with success := some "Flow saved successfully." },
     some { nodes := s0.nodes, edges := s0.edges })

/-- C5: the payload is handed off exactly when validateBeforeSave answers
affirmatively on the current snapshot, the handed-off payload is that
exact snapshot, and in either case the node collection, edge collection
and selection are left unchanged. -/
theorem onSave_gates_payload (s : SaveButtonState) :
    (onSave s).2 = (if (validateBeforeSave s.nodes s.edges).ok
                    then some { nodes := s.nodes, edges := s.edges }
                    else none) ∧
    (onSave s).1.nodes = s.nodes ∧
    (onSave s).1.edges = s.edges ∧
    (onSave s).1.selectedNodeId = s.selectedNodeId := by
  rw [onSave]
  by_cases hok : (validateBeforeSave s.nodes s.edges).ok
  · simp [hok]
  · simp [hok]

/-- React Flow connection object handed to FlowCanvas.onConnect. -/
structure Connection where
  source : Option String
  target : Option String
  sourceHandle : Option String
  targetHandle : Option String
  deriving DecidableEq

/-- JavaScript x || null on a nullable string: null and the empty string
collapse to null. -/
def jsOrNull : Option String → Option String
  | none => none
  | some s => if s = "" then none else some s

/-- Numeric value of a decimal digit string. -/
def digitsVal (ds : List Char) : Nat :=
  ds.foldl (fun a c => a * 10 + (c.toNat - 48)) 0

/-- JavaScript parseInt on decimal inputs: skip leading whitespace, read an
optional sign and the longest prefix of decimal digits, NaN (none) when
there is none. The hexadecimal 0x prefix is not modelled; a numeric input
field never produces it. -/
def parseIntJS (s : String) : Option Int :=
  match s.toList.dropWhile (fun c => c.isWhitespace) with
  | '-' :: cs =>
    let ds := cs.takeWhile (fun c => c.isDigit)
    if ds.isEmpty then none else some (-(digitsVal ds : Int))
  | '+' :: cs =>
    let ds := cs.takeWhile (fun c => c.isDigit)
    if ds.isEmpty then none else some ((digitsVal ds : Int))
  | cs =>
    let ds := cs.takeWhile (fun c => c.isDigit)
    if ds.isEmpty then none else some ((digitsVal ds : Int))

/-- The max-size update expression parseInt(e.target.value) || 1 of
FileUploadSettingsPanel.onChangeMaxSize: NaN and 0 are falsy and fall
back to 1, every other parsed value passes through. -/
def parsedMaxSize (v : String) : Int :=
  match parseIntJS v with
  | none => 1
  | some n => if n = 0 then 1 else n

/-- createNode from FlowCanvas: a fresh node with id type-timestamp and
the kind-appropriate default config; null for an unsupported type. -/
def createNode (ty : String) (position : Position) (timestamp : Nat) : Option AppNode :=
  if ty = "text" then
    some { id := ty ++ "-" ++ toString timestamp, position, data := .text "New message" }
  else if ty = "fileUpload" then
    some { id := ty ++ "-" ++ toString timestamp, position,
           data := .fileUpload "Upload Files" [] 5 false }
  else none

/-- Spread-update of the text field (SettingsPanel.onChangeText). -/
def NodeData.setText : NodeData → String → NodeData
  | .text _, v => .text v
  | .fileUpload l a m mult, _ => .fileUpload l a m mult

/-- Spread-update of the label field (onChangeLabel). -/
def NodeData.setLabel : NodeData → String → NodeData
  | .fileUpload _ a m mult, v => .fileUpload v a m mult
  | .text t, _ => .text t

/-- Spread-update of the maxSize field (onChangeMaxSize). -/
def NodeData.setMaxSize : NodeData → Int → NodeData
  | .fileUpload l a _ mult, m => .fileUpload l a m mult
  | .text t, _ => .text t

/-- Spread-update of the multiple field (onChangeMultiple). -/
def NodeData.setMultiple : NodeData → Bool → NodeData
  | .fileUpload l a m _, mult => .fileUpload l a m mult
  | .text t, _ => .text t

/-- Spread-update appending an allowed file type (addFileType). -/
def NodeData.addAllowed : NodeData → String → NodeData
  | .fileUpload l a m mult, t => .fileUpload l (a ++ [t]) m mult
  | .text tx, _ => .text tx

/-- Spread-update removing an allowed file type (removeFileType). -/
def NodeData.removeAllowed : NodeData → String → NodeData
  | .fileUpload l a m mult, t => .fileUpload l (a.filter (fun x => !(x == t))) m mult
  | .text tx, _ => .text tx

/-- nodes.find(n => n.id === selectedNodeId): none when nothing is
selected (strict equality with null never holds), otherwise the first
node carrying the selected id. -/
def selectedNode (s : CanvasState) : Option AppNode :=
  match s.selectedNodeId with
  | none => none
  | some sel => s.nodes.find? (fun n => n.id == sel)

/-- The shared update shape of every settings-panel field handler: map
over the collection, replacing the data of each node that carries the
selected node's id and keeping every other node as is. -/
def updateSelected (s : CanvasState) (node : AppNode) (f : NodeData → NodeData) : CanvasState :=
  { s with nodes := s.nodes.map (fun n =>
      if n.id == node.id then { n with data := f n.data } else n) }

/-- The UI events handled by the repository's own components: node and
canvas clicks, the Delete-key shortcut, palette drops, connect gestures,
and the settings-panel edits and delete button (SettingsPanel is only
rendered for a selected text node and FileUploadSettingsPanel returns
null unless the selected node is a file-upload node, which the data
matches in the panel operations reflect). -/
inductive Op where
  | nodeClick (n : AppNode)
  | paneClick
  | keyDown (key : String)
  | deleteNode
  | drop (ty : String) (position : Position) (timestamp : Nat)
  | connect (c : Connection)
  | changeText (v : String)
  | changeLabel (v : String)
  | changeMaxSize (v : String)
  | changeMultiple (checked : Bool)
  | addFileType (v : String)
  | removeFileType (t : String)

/-- One UI event applied to the store snapshot, each case translated from
its handler: onNodeClick, onPaneClick, onKeyDown, onDeleteNode, onDrop,
onConnect, onChangeText, onChangeLabel, onChangeMaxSize, onChangeMultiple,
addFileType and removeFileType. -/
def step (op : Op) (s : CanvasState) : CanvasState :=
  match op with
  | .nodeClick n => { s with selectedNodeId := some n.id }
  | .paneClick => { s with selectedNodeId := none }
  | .keyDown key =>
    match s.selectedNodeId with
    | some sel =>
      if key = "Delete" ∧ sel ≠ "" then
        { s with nodes := s.nodes.filter (fun n => !(n.id == sel)), selectedNodeId := none }
      else s
    | none => s
  | .deleteNode =>
    match selectedNode s with
    | some node =>
      { s with nodes := s.nodes.filter (fun n => !(n.id == node.id)), selectedNodeId := none }
    | none => s
  | .drop ty position timestamp =>
    match createNode ty position timestamp with
    | some n => { s with nodes := s.nodes ++ [n] }
    | none => s
  | .connect c =>
    match c.source, c.target with
    | some src, some tgt =>
      if src ≠ "" ∧ tgt ≠ "" then
        { s with edges := s.edges ++
          [{ id := "edge-" ++ src ++ "-" ++ tgt, source := src, target := tgt,
             sourceHandle := jsOrNull c.sourceHandle,
             targetHandle := jsOrNull c.targetHandle,
             kind := "default", style := { stroke := "#3B82F6", strokeWidth := 2 },
             markerEnd := { kind := "arrowclosed", color := "#3B82F6",
                            width := 20, height := 20 },
             animated := false }] }
      else s
    | _, _ => s
  | .changeText v =>
    match selectedNode s with
    | some node =>
      match node.data with
      | .text _ => updateSelected s node (fun d => d.setText v)
      | .fileUpload _ _ _ _ => s
    | none => s
  | .changeLabel v =>
    match selectedNode s with
    | some node =>
      match node.data with
      | .fileUpload _ _ _ _ => updateSelected s node (fun d => d.setLabel v)
      | .text _ => s
    | none => s
  | .changeMaxSize v =>
    match selectedNode s with
    | some node =>
      match node.data with
      | .fileUpload _ _ _ _ => updateSelected s node (fun d => d.setMaxSize (parsedMaxSize v))
      | .text _ => s
    | none => s
  | .changeMultiple checked =>
    match selectedNode s with
    | some node =>
      match node.data with
      | .fileUpload _ _ _ _ => updateSelected s node (fun d => d.setMultiple checked)
      | .text _ => s
    | none => s
  | .addFileType v =>
    if v.trim = "" then s
    else
      match selectedNode s with
      | some node =>
        match node.data with
        | .fileUpload _ allowed _ _ =>
          if v.trim ∈ allowed then s
          else updateSelected s node (fun d => d.addAllowed v.trim)
        | .text _ => s
      | none => s
  | .removeFileType t =>
    match selectedNode s with
    | some node =>
      match node.data with
      | .fileUpload _ _ _ _ => updateSelected s node (fun d => d.removeAllowed t)
      | .text _ => s
    | none => s

/-- The selection cursor is consistent: either nothing is selected or
some node of the collection carries the selected id. -/
def selectionOk (s : CanvasState) : Bool :=
  match s.selectedNodeId with
  | none => true
  | some sel => s.nodes.any (fun n => n.id == sel)

/-- Precondition of an event: React Flow hands onNodeClick a node it is
currently rendering, so a click always targets a member of the
collection; every other event is unconstrained. -/
def opPre : Op → CanvasState → Prop
  | .nodeClick n, s => n ∈ s.nodes
  | _, _ => True

theorem selectionOk_updateSelected (s : CanvasState) (node : AppNode)
    (f : NodeData → NodeData) :
    selectionOk (updateSelected s node f) = selectionOk s := by
  rw [selectionOk, selectionOk, updateSelected]
  cases hsel : s.selectedNodeId with
  | none => rfl
  | some sel =>
    simp only [List.any_map]
    congr 1
    funext n
    by_cases h : (n.id == node.id) = true
    · simp [Function.comp, h]
    · simp [Function.comp, h]

theorem selectionOk_append (s : CanvasState) (l : List AppNode)
    (hs : selectionOk s = true) :
    selectionOk { s with nodes := s.nodes ++ l } = true := by
  cases hsel : s.selectedNodeId with
  | none => simp [selectionOk, hsel]
  | some sel =>
    simp only [selectionOk, hsel] at hs ⊢
    simp [List.any_append, hs]

/-- C6: every UI event preserves selection consistency — after any
operation the cursor is either cleared or names a node still present in
the collection; in particular both deletion paths clear the cursor when
they remove the selected node, and no other event can orphan it. -/
theorem step_preserves_selectionOk (op : Op) (s : CanvasState)
    (hpre : opPre op s) (hs : selectionOk s = true) :
    selectionOk (step op s) = true := by
  cases op with
  | nodeClick n =>
    simp only [step, selectionOk]
    rw [List.any_eq_true]
    exact ⟨n, hpre, by simp⟩
  | paneClick => rfl
  | keyDown key =>
    simp only [step]
    repeat' split
    all_goals first | exact hs | rfl
  | deleteNode =>
    simp only [step]
    repeat' split
    all_goals first | exact hs | rfl
  | drop ty position timestamp =>
    simp only [step]
    cases hc : createNode ty position timestamp with
    | none => exact hs
    | some n => exact selectionOk_append s [n] hs
  | connect c =>
    simp only [step]
    repeat' split
    all_goals exact hs
  | changeText v =>
    simp only [step]
    repeat' split
    all_goals first | exact hs | (rw [selectionOk_updateSelected]; exact hs)
  | changeLabel v =>
    simp only [step]
    repeat' split
    all_goals first | exact hs | (rw [selectionOk_updateSelected]; exact hs)
  | changeMaxSize v =>
    simp only [step]
    repeat' split
    all_goals first | exact hs | (rw [selectionOk_updateSelected]; exact hs)
  | changeMultiple checked =>
    simp only [step]
    repeat' split
    all_goals first | exact hs | (rw [selectionOk_updateSelected]; exact hs)
  | addFileType v =>
    simp only [step]
    repeat' split
    all_goals first | exact hs | (rw [selectionOk_updateSelected]; exact hs)
  | removeFileType t =>
    simp only [step]
    repeat' split
    all_goals first | exact hs | (rw [selectionOk_updateSelected]; exact hs)

theorem step_preserves_selectionOk_witness :
    selectionOk initialFlowState = true ∧
    selectionOk (step (Op.keyDown "Delete") initialFlowState) = true :=
  ⟨by decide,
   step_preserves_selectionOk (Op.keyDown "Delete") initialFlowState trivial (by decide)⟩

/-- C7: both deletion paths — the Delete-key shortcut of FlowCanvas and
the settings-panel delete button — remove exactly the nodes carrying the
selected id and clear the cursor, while the edge collection is left
completely unchanged: no cascade deletion of incident edges. -/
theorem node_deletion_keeps_edges (s : CanvasState) (sel : String) (node : AppNode)
    (hsel : s.selectedNodeId = some sel) (hne : sel ≠ "")
    (hfind : s.nodes.find? (fun n => n.id == sel) = some node) :
    (step (Op.keyDown "Delete") s).edges = s.edges ∧
    (step (Op.keyDown "Delete") s).nodes = s.nodes.filter (fun n => !(n.id == sel)) ∧
    (step (Op.keyDown "Delete") s).selectedNodeId = none ∧
    (step Op.deleteNode s).edges = s.edges ∧
    (step Op.deleteNode s).nodes = s.nodes.filter (fun n => !(n.id == node.id)) ∧
    (step Op.deleteNode s).selectedNodeId = none := by
  refine ⟨?_, ?_, ?_, ?_, ?_, ?_⟩ <;> simp [step, selectedNode, hsel, hfind, hne]

/-- The initial store node of useFlowState.ts. -/
def node0 : AppNode :=
  { id := "text-1", position := { x := 400, y := 200 }, data := .text "Hello World" }

/-- The initial store state with its only node selected. -/
def c7state : CanvasState := { initialFlowState with selectedNodeId := some "text-1" }

theorem node_deletion_keeps_edges_witness :
    (step (Op.keyDown "Delete") c7state).edges = c7state.edges ∧
    (step (Op.keyDown "Delete") c7state).nodes =
      c7state.nodes.filter (fun n => !(n.id == "text-1")) ∧
    (step (Op.keyDown "Delete") c7state).selectedNodeId = none ∧
    (step Op.deleteNode c7state).edges = c7state.edges ∧
    (step Op.deleteNode c7state).nodes =
      c7state.nodes.filter (fun n => !(n.id == node0.id)) ∧
    (step Op.deleteNode c7state).selectedNodeId = none :=
  node_deletion_keeps_edges c7state "text-1" node0 rfl (by decide) (by decide)

/-- Two unconnected text nodes X and Y, nothing selected. -/
def c8s0 : CanvasState :=
  { nodes := [mkTextNode "X", mkTextNode "Y"], edges := [], selectedNodeId := none }

/-- The state after a first connect gesture X→Y using the right handle. -/
def c8s1 : CanvasState :=
  step (Op.connect { source := some "X", target := some "Y",
                     sourceHandle := some "right", targetHandle := none }) c8s0

/-- The state after a second connect gesture X→Y with no handle. -/
def c8s2 : CanvasState :=
  step (Op.connect { source := some "X", target := some "Y",
                     sourceHandle := none, targetHandle := none }) c8s1

/-- C8: after two successive connect gestures between the existing nodes
X and Y, the collection holds two unequal edges that carry the same id
edge-X-Y — the deterministic id scheme of onConnect breaks edge-id
uniqueness as soon as a pair of nodes is connected twice. -/
theorem duplicate_edge_id_reachable :
    c8s2.edges.length = 2 ∧
    c8s2.edges.map (fun e => e.id) = ["edge-X-Y", "edge-X-Y"] ∧
    c8s2.edges.getD 0 (mkEdge "z" "z" "z") ≠ c8s2.edges.getD 1 (mkEdge "z" "z" "z") := by
  decide

/-- A freshly created file-upload node with the default config. -/
def c9node : AppNode :=
  { id := "file-1", position := { x := 0, y := 0 },
    data := .fileUpload "Upload Files" [] 5 false }

/-- A snapshot with the file-upload node selected, its settings panel open. -/
def c9state : CanvasState :=
  { nodes := [c9node], edges := [], selectedNodeId := some "file-1" }

/-- C9: the creation default maxSize 5 satisfies the ≥ 1 bound, but typing
-3 into the max-size input stores parseInt("-3") = -3 — a truthy value
the || 1 fallback does not catch — leaving a file-upload node whose
maxSize violates the invariant. -/
theorem maxSize_negative_update :
    createNode "fileUpload" { x := 0, y := 0 } 7 =
      some { id := "fileUpload-7", position := { x := 0, y := 0 },
             data := .fileUpload "Upload Files" [] 5 false } ∧
    parsedMaxSize "-3" = -3 ∧
    (step (Op.changeMaxSize "-3") c9state).nodes =
      [{ c9node with data := .fileUpload "Upload Files" [] (-3) false }] ∧
    ¬ (1 ≤ (-3 : Int)) := by
  decide

theorem map_id_filter (p : String → Bool) (ns : List AppNode) :
    (ns.filter (fun n => p n.id)).map (fun n => n.id)
      = (ns.map (fun n => n.id)).filter p := by
  induction ns with
  | nil => rfl
  | cons n ns ih =>
    by_cases h : p n.id = true
    · simp [List.filter_cons, h, ih]
    · simp [List.filter_cons, h, ih]

theorem outDegree_eq_count_sources (edges : List AppEdge) (id : String) :
    outDegree edges id = (edges.map (fun e => e.source)).countP (fun x => x == id) := by
  rw [outDegree, List.countP_map]
  rfl

/-- C10: the verdict of validateBeforeSave depends only on the sequence
of node ids and the sequence of edge source fields — two inputs agreeing
on those, with targets, handles, style and every other attribute free,
receive equal verdicts. -/
theorem verdict_depends_only_on_ids_and_sources
    (nodes1 nodes2 : List AppNode) (edges1 edges2 : List AppEdge)
    (hn : nodes1.map (fun n => n.id) = nodes2.map (fun n => n.id))
    (he : edges1.map (fun e => e.source) = edges2.map (fun e => e.source)) :
    validateBeforeSave nodes1 edges1 = validateBeforeSave nodes2 edges2 := by
  have hdeg : outDegree edges1 = outDegree edges2 := by
    funext id
    rw [outDegree_eq_count_sources, outDegree_eq_count_sources, he]
  have hlen : nodes1.length = nodes2.length := by
    have h := congrArg List.length hn
    simpa using h
  have hterm_ids : (terminalNodes nodes1 edges1).map (fun n => n.id)
      = (terminalNodes nodes2 edges2).map (fun n => n.id) := by
    rw [terminalNodes, terminalNodes,
      map_id_filter (fun x => outDegree edges1 x == 0),
      map_id_filter (fun x => outDegree edges2 x == 0), hn, hdeg]
  have hterm_len : (terminalNodes nodes1 edges1).length
      = (terminalNodes nodes2 edges2).length := by
    have h := congrArg List.length hterm_ids
    simpa using h
  rw [validateBeforeSave_eq, validateBeforeSave_eq, hlen, hterm_len, hterm_ids]

/-- Witness nodes for C10. -/
def w10nodes : List AppNode := [mkTextNode "X", mkTextNode "Y"]

/-- Witness edges for C10: same source X, different target and id. -/
def w10edges1 : List AppEdge := [mkEdge "a" "X" "Y"]

/-- Witness edges for C10: the source agrees with w10edges1 while the id,
target, handle and animation flag all differ. -/
def w10edges2 : List AppEdge :=
  [{ mkEdge "b" "X" "Z" with sourceHandle := some "right", animated := true }]

theorem verdict_depends_only_on_ids_and_sources_witness :
    validateBeforeSave w10nodes w10edges1 = validateBeforeSave w10nodes w10edges2 :=
  verdict_depends_only_on_ids_and_sources w10nodes w10nodes w10edges1 w10edges2
    (by decide) (by decide)
